import Mathlib

/-!
Verification of the ByteKart backend order-lifecycle engine.

The definitions below are a shallow embedding of the Python source under
`src/routers/orders.py`, `src/routers/returns.py`, `src/routers/admin.py`
and `src/helpers/verify_payment_sig.py`. Money values are modelled as
exact rationals; Python rounding and truncation primitives are modelled
explicitly. Database sessions become explicit state passing over a `DB`
record; a failed commit leaves the state unchanged (transactional
rollback), mirroring the `session.rollback()` calls in the source.
-/

namespace ByteKart

/-- Rounding of a rational to the nearest integer with ties going to the
even integer, as Python's builtin `round` does. -/
def pyRound (q : ℚ) : ℤ :=
  let f : ℤ := ⌊q⌋
  let r : ℚ := q - (f : ℚ)
  if r < 1/2 then f
  else if 1/2 < r then f + 1
  else if f % 2 = 0 then f else f + 1

/-- Python's `round(x, 2)`: round to two decimal places, ties to even. -/
def round2 (q : ℚ) : ℚ := ((pyRound (q * 100) : ℚ)) / 100

/-- Python's `int(x)` on a number: truncation toward zero. -/
def pyInt (q : ℚ) : ℤ := if 0 ≤ q then ⌊q⌋ else ⌈q⌉

/-- Normalization applied to a redeem code before lookup, from
`order_data.redeem_code.strip().upper()` in `routers/orders.py`:
surrounding whitespace is dropped and letters are uppercased (ASCII
model of Python's strip/upper), written over the character list so that
it evaluates on concrete inputs. -/
def normalizeCode (s : String) : String :=
  String.mk
    (((s.data.dropWhile Char.isWhitespace).reverse.dropWhile Char.isWhitespace).reverse.map
      Char.toUpper)

/-- A cart line item. In the source a line item is a JSON object read with
`item.get('price', 0)` and `item.get('quantity', 1)`, so both keys may be
absent; an absent key is `none` here. -/
structure CartItem where
  price : Option ℚ
  quantity : Option ℚ
deriving DecidableEq

/-- Contribution of one line item to the subtotal:
`item.get('price', 0) * item.get('quantity', 1)`. -/
def itemAmount (it : CartItem) : ℚ := it.price.getD 0 * it.quantity.getD 1

/-- Cart subtotal: `sum(item.get('price', 0) * item.get('quantity', 1) for item in cart.items)`. -/
def cartSubtotal (items : List CartItem) : ℚ := (items.map itemAmount).sum

/-- The `ShoppingCart` table of `models.py`. -/
structure ShoppingCart where
  user_id : String
  items : List CartItem
deriving DecidableEq

/-- Discount kind of a redeem code; the source compares
`redeem.discount_type == "percentage"` and treats anything else as a
fixed amount. -/
inductive DiscountType
  | percentage
  | fixed
deriving DecidableEq

/-- Discount code record. The `RedeemCode` table class is imported by the
routers but its class body is not present in `models.py`; the fields here
are exactly those the routers use: `code`, `is_active`, `times_redeemed`,
`max_redeems`, `discount_type`, `discount_value`. -/
structure RedeemCode where
  code : String
  is_active : Bool
  times_redeemed : ℕ
  max_redeems : ℕ
  discount_type : DiscountType
  discount_value : ℚ
deriving DecidableEq

/-- The `OrderStatus` enum of `models.py`. -/
inductive OrderStatus
  | pending
  | paid
  | failed
  | shipped
  | delivered
  | return_requested
  | returned
deriving DecidableEq

/-- The `ReturnStatus` enum of `models.py`. -/
inductive ReturnStatus
  | pending
  | approved
  | rejected
deriving DecidableEq

/-- A shipping address as consumed by the checkout-details upsert: only
the `phone`, `address`, `city`, `pincode` keys are read, each via
`dict.get`, so each may be absent. -/
structure Address where
  phone : Option String
  address : Option String
  city : Option String
  pincode : Option String
deriving DecidableEq

/-- The `Order` table of `models.py`. The source stores `created_at` as an
ISO timestamp string; here it is epoch seconds, which is what the return
window arithmetic consumes. -/
structure Order where
  id : String
  user_id : String
  razorpay_order_id : Option String
  razorpay_payment_id : Option String
  items : List CartItem
  shipping_address : Address
  shipping_fee : ℚ
  total_amount : ℚ
  status : OrderStatus
  created_at : ℤ
deriving DecidableEq

/-- The `ReturnRequest` table of `models.py`. -/
structure ReturnRequest where
  id : String
  order_id : String
  user_id : String
  reason : String
  status : ReturnStatus
  created_at : ℤ
deriving DecidableEq

/-- The `CheckoutDetails` table of `models.py`. -/
structure CheckoutDetails where
  user_id : String
  phone : Option String
  address : Option String
  city : Option String
  pincode : Option String
deriving DecidableEq

/-- The persistent store rows the order-lifecycle endpoints touch. -/
structure DB where
  carts : List ShoppingCart
  orders : List Order
  codes : List RedeemCode
  details : List CheckoutDetails
  returns : List ReturnRequest
deriving DecidableEq

/-- Request body of `POST /orders` (`OrderData` in `routers/orders.py`). -/
structure OrderData where
  shipping_address : Address
  shipping_fee : ℚ
  redeem_code : Option String

/-- Request body of `POST /verify/payment` (`PaymentsDeets`). -/
structure PaymentsDeets where
  razorpay_order_id : String
  razorpay_payment_id : String
  razorpay_signature : String
deriving DecidableEq

/-- Failure outcomes of `create_order`, one per `HTTPException` site. -/
inductive CreateErr
  | emptyCart
  | invalidCode
  | gatewayError
  | dbError
deriving DecidableEq

/-- Result of one `create_order` call: the HTTP outcome (on success, the
razorpay order id returned to the client), the resulting store, and the
list of amounts passed to `client.order.create`. -/
structure CreateOutcome where
  result : Except CreateErr String
  db : DB
  gatewayAmounts : List ℤ

/-- Discount for a found, valid redeem code, from `routers/orders.py`
lines 59-62: percentage codes give `round(subtotal * (value / 100), 2)`,
anything else gives `min(value, subtotal)`. -/
def codeDiscount (subtotal : ℚ) (rc : RedeemCode) : ℚ :=
  match rc.discount_type with
  | .percentage => round2 (subtotal * (rc.discount_value / 100))
  | .fixed => min rc.discount_value subtotal

/-- Checkout-details upsert of `routers/orders.py` lines 88-97: each field
is overwritten from the shipping address when the key is present and kept
otherwise. -/
def applyAddr (d : CheckoutDetails) (addr : Address) : CheckoutDetails :=
  { d with
    phone := match addr.phone with | some p => some p | none => d.phone
    address := match addr.address with | some a => some a | none => d.address
    city := match addr.city with | some c => some c | none => d.city
    pincode := match addr.pincode with | some p => some p | none => d.pincode }

/-- Upsert of the `CheckoutDetails` row for a user. -/
def upsertDetails (ds : List CheckoutDetails) (uid : String) (addr : Address) : List CheckoutDetails :=
  match ds.find? (fun d => d.user_id == uid) with
  | none => ds ++ [applyAddr { user_id := uid, phone := none, address := none, city := none, pincode := none } addr]
  | some _ => ds.map (fun d => if d.user_id == uid then applyAddr d addr else d)

/-- The redeem-code step of `create_order` (`routers/orders.py` lines
49-63): no code gives discount 0; a supplied code must exist (after
strip/uppercase normalization), be active and have
`times_redeemed < max_redeems`, else the call fails; a valid code yields
its discount and is remembered for the counter increment. -/
def resolveRedeemCode (codes : List RedeemCode) (subtotal : ℚ) :
    Option String → Except CreateErr (ℚ × Option RedeemCode)
  | none => .ok (0, none)
  | some c =>
    match codes.find? (fun rc => rc.code == normalizeCode c) with
    | none => .error .invalidCode
    | some rc =>
      if rc.is_active = false then .error .invalidCode
      else if rc.max_redeems ≤ rc.times_redeemed then .error .invalidCode
      else .ok (codeDiscount subtotal rc, some rc)

/-- The `POST /orders` handler (`create_order` in `routers/orders.py`).
External effects are parameters: `gw` is `client.order.create`, mapping
the minor-unit amount to a gateway order id or an error; `newOrderId` and
`now` stand for the generated UUID and timestamp; `commitOk` tells
whether `session.commit()` succeeds (a failed commit rolls everything
back). -/
def create_order (db : DB) (uid : String) (order_data : OrderData)
    (gw : ℤ → Except Unit String) (newOrderId : String) (now : ℤ)
    (commitOk : Bool) : CreateOutcome :=
  match db.carts.find? (fun c => c.user_id == uid) with
  | none => ⟨.error .emptyCart, db, []⟩
  | some cart =>
    if cart.items = [] then ⟨.error .emptyCart, db, []⟩
    else
      let subtotal := cartSubtotal cart.items
      match resolveRedeemCode db.codes subtotal order_data.redeem_code with
      | .error e => ⟨.error e, db, []⟩
      | .ok (discount, applied) =>
        let total_amount := max (subtotal - discount + order_data.shipping_fee) 0
        let razorpay_amount := pyInt (total_amount * 100)
        match gw razorpay_amount with
        | .error _ => ⟨.error .gatewayError, db, [razorpay_amount]⟩
        | .ok rzpId =>
          let new_order : Order :=
            { id := newOrderId
              user_id := uid
              razorpay_order_id := some rzpId
              razorpay_payment_id := none
              items := cart.items
              shipping_address := order_data.shipping_address
              shipping_fee := order_data.shipping_fee
              total_amount := total_amount
              status := .pending
              created_at := now }
          let details1 := upsertDetails db.details uid order_data.shipping_address
          let codes1 :=
            match applied with
            | none => db.codes
            | some rc => db.codes.map (fun x =>
                if x.code == rc.code then { x with times_redeemed := x.times_redeemed + 1 } else x)
          if commitOk then
            ⟨.ok rzpId,
             { db with orders := db.orders ++ [new_order], details := details1, codes := codes1 },
             [razorpay_amount]⟩
          else ⟨.error .dbError, db, [razorpay_amount]⟩

/-- The helper `verify_payment` of `helpers/verify_payment_sig.py`. The
razorpay utility recomputes the expected signature for the pair from the
shared secret (abstracted as `expected`) and raises
`SignatureVerificationError` exactly when the supplied signature differs;
the helper turns that into `False` and returns `True` otherwise. Any
other exception from the utility (`transport = true`) propagates. -/
def verify_payment (expected : String → String → String)
    (razorpay_order_id razorpay_payment_id razorpay_signature : String)
    (transport : Bool) : Except Unit Bool :=
  if transport then .error ()
  else .ok (razorpay_signature == expected razorpay_order_id razorpay_payment_id)

/-- Failure outcomes of `verify_payment_endpoint`, one per
`HTTPException` site. -/
inductive VerifyErr
  | serviceError
  | sigFailed
  | dbError
deriving DecidableEq

/-- Emails the payment-confirmation handler attempts to send. -/
inductive EmailEvt
  | orderConfirmation (user_email : String) (order_id : String)
  | adminNewOrder (order_id : String)
deriving DecidableEq

/-- Result of one `POST /verify/payment` call: the HTTP outcome (on
success, the `order_id` field of the response), the resulting store, and
the confirmation emails attempted after commit. -/
structure VerifyOutcome where
  result : Except VerifyErr (Option String)
  db : DB
  emails : List EmailEvt

/-- Row update applied to the matched order on payment confirmation:
`order.status = OrderStatus.PAID; order.razorpay_payment_id = ...`,
keyed by the matched row's primary key. -/
def paidUpdate (omid pid : String) (o : Order) : Order :=
  if o.id == omid then { o with status := .paid, razorpay_payment_id := some pid } else o

/-- Cart update applied on payment confirmation: the authenticated
caller's cart has its items replaced by the empty list. -/
def clearCart (uid : String) (c : ShoppingCart) : ShoppingCart :=
  if c.user_id == uid then { c with items := [] } else c

/-- The `POST /verify/payment` handler (`verify_payment_endpoint` in
`routers/orders.py`). On a valid signature the first order with the
submitted razorpay order id is set to PAID with the submitted payment id
recorded, and the cart of the authenticated caller (`current_user`) is
emptied; both email dispatches are attempted after the commit and their
failures are swallowed, so `emails` records the attempts. -/
def verify_payment_endpoint (db : DB) (uid : String) (userEmail : String)
    (deets : PaymentsDeets) (expected : String → String → String)
    (transport : Bool) (commitOk : Bool) : VerifyOutcome :=
  match verify_payment expected deets.razorpay_order_id deets.razorpay_payment_id
      deets.razorpay_signature transport with
  | .error _ => ⟨.error .serviceError, db, []⟩
  | .ok false => ⟨.error .sigFailed, db, []⟩
  | .ok true =>
    match db.orders.find? (fun o => o.razorpay_order_id == some deets.razorpay_order_id) with
    | none => ⟨.ok none, db, []⟩
    | some order =>
      let orders1 := db.orders.map (paidUpdate order.id deets.razorpay_payment_id)
      let carts1 := db.carts.map (clearCart uid)
      if commitOk then
        ⟨.ok (some order.id), { db with orders := orders1, carts := carts1 },
         [.orderConfirmation userEmail order.id, .adminNewOrder order.id]⟩
      else ⟨.error .dbError, db, []⟩

/-- Failure outcomes of `initiate_return`, one per `HTTPException` site in
`routers/returns.py`. -/
inductive ReturnErr
  | notFound
  | invalidState
  | windowExpired
  | duplicateRequest
  | dbError
deriving DecidableEq

/-- Result of one `POST /orders/id/return` call. -/
structure ReturnOutcome where
  result : Except ReturnErr String
  db : DB

/-- Whole days elapsed, as `(datetime.now(utc) - order_date).days`
computes it: Python timedelta days floor toward negative infinity. -/
def daysSince (now created : ℤ) : ℤ := Int.fdiv (now - created) 86400

/-- The `POST /orders/id/return` handler (`initiate_return` in
`routers/returns.py`): ownership-scoped lookup (404 on miss), status must
be DELIVERED, at most 7 whole days may have elapsed since the order's
creation, no prior return request may exist; on success a PENDING
ReturnRequest and the order's move to RETURN_REQUESTED commit together,
and a failed commit rolls both back. -/
def initiate_return (db : DB) (uid : String) (oid : String) (reason : String)
    (newReqId : String) (now : ℤ) (commitOk : Bool) : ReturnOutcome :=
  match db.orders.find? (fun o => o.id == oid && o.user_id == uid) with
  | none => ⟨.error .notFound, db⟩
  | some order =>
    if order.status ≠ .delivered then ⟨.error .invalidState, db⟩
    else if 7 < daysSince now order.created_at then ⟨.error .windowExpired, db⟩
    else if (db.returns.find? (fun r => r.order_id == oid)).isSome then
      ⟨.error .duplicateRequest, db⟩
    else
      let return_req : ReturnRequest :=
        { id := newReqId, order_id := oid, user_id := uid, reason := reason,
          status := .pending, created_at := now }
      let orders1 := db.orders.map (fun o =>
        if o.id == order.id then { o with status := .return_requested } else o)
      if commitOk then
        ⟨.ok newReqId, { db with returns := db.returns ++ [return_req], orders := orders1 }⟩
      else ⟨.error .dbError, db⟩

/-- Failure outcomes shared by the two admin status handlers. -/
inductive AdminErr
  | notFound
  | dbError
deriving DecidableEq

/-- Result of one admin status-update call. -/
structure AdminOutcome where
  result : Except AdminErr Unit
  db : DB

/-- The `PUT /admin/orders/id/status` handler
(`admin_update_order_status` in `routers/admin.py`): unconditionally sets
the order's status to the requested value, with no transition table. -/
def admin_update_order_status (db : DB) (oid : String) (newStatus : OrderStatus)
    (commitOk : Bool) : AdminOutcome :=
  match db.orders.find? (fun o => o.id == oid) with
  | none => ⟨.error .notFound, db⟩
  | some order =>
    let orders1 := db.orders.map (fun o =>
      if o.id == order.id then { o with status := newStatus } else o)
    if commitOk then ⟨.ok (), { db with orders := orders1 }⟩
    else ⟨.error .dbError, db⟩

/-- The `PUT /admin/returns/id/status` handler
(`admin_update_return_status` in `routers/admin.py`): sets the return
request's status; an APPROVED decision moves the linked order to
RETURNED, a REJECTED one moves it back to DELIVERED. -/
def admin_update_return_status (db : DB) (rid : String) (decision : ReturnStatus)
    (commitOk : Bool) : AdminOutcome :=
  match db.returns.find? (fun r => r.id == rid) with
  | none => ⟨.error .notFound, db⟩
  | some return_req =>
    let returns1 := db.returns.map (fun r =>
      if r.id == return_req.id then { r with status := decision } else r)
    let orders1 :=
      match db.orders.find? (fun o => o.id == return_req.order_id) with
      | none => db.orders
      | some order =>
        if decision = .approved then
          db.orders.map (fun o => if o.id == order.id then { o with status := .returned } else o)
        else if decision = .rejected then
          db.orders.map (fun o => if o.id == order.id then { o with status := .delivered } else o)
        else db.orders
    if commitOk then ⟨.ok (), { db with returns := returns1, orders := orders1 }⟩
    else ⟨.error .dbError, db⟩

/-- One invocation of any endpoint of the system that can mutate order
rows, with its external oracles (gateway outcome, commit success, fresh
ids, clock) carried in the event. -/
inductive Event
  | create (uid : String) (od : OrderData) (gwFail : Bool) (gwId : String)
      (newOrderId : String) (now : ℤ) (commitOk : Bool)
  | confirm (uid : String) (userEmail : String) (deets : PaymentsDeets)
      (transport : Bool) (commitOk : Bool)
  | adminSetStatus (oid : String) (st : OrderStatus) (commitOk : Bool)
  | requestReturn (uid oid reason newReqId : String) (now : ℤ) (commitOk : Bool)
  | adminReturn (rid : String) (decision : ReturnStatus) (commitOk : Bool)

/-- Effect of one event on the store; `expected` is the gateway's
signature function shared by all confirmation calls. -/
def step (expected : String → String → String) (db : DB) : Event → DB
  | .create uid od gwFail gwId newOrderId now commitOk =>
    (create_order db uid od (fun _ => if gwFail then .error () else .ok gwId)
      newOrderId now commitOk).db
  | .confirm uid userEmail deets transport commitOk =>
    (verify_payment_endpoint db uid userEmail deets expected transport commitOk).db
  | .adminSetStatus oid st commitOk => (admin_update_order_status db oid st commitOk).db
  | .requestReturn uid oid reason newReqId now commitOk =>
    (initiate_return db uid oid reason newReqId now commitOk).db
  | .adminReturn rid decision commitOk => (admin_update_return_status db rid decision commitOk).db

/-- State of two concurrent `create_order` transactions racing on one
redeem code, abstracted to the accesses the source makes to
`times_redeemed`: each transaction SELECTs the row
(`routers/orders.py` line 53), checks `times_redeemed >= max_redeems` in
Python against the value it read (line 57), and on commit writes back
`value_read + 1` (lines 100, 104) — not an atomic conditional UPDATE. -/
structure RaceState where
  counter : ℕ
  readA : Option ℕ
  readB : Option ℕ
  doneA : Bool
  doneB : Bool
deriving DecidableEq

/-- Atomic actions of the two racing transactions: each reads the shared
counter once, then commits its in-memory increment. -/
inductive RaceAct
  | selectA
  | selectB
  | commitA
  | commitB
deriving DecidableEq

/-- Interleaved execution of the two naive read-check-write transactions:
a commit succeeds (the order is created and the stale increment written)
exactly when the value the transaction read passed the Python-side check. -/
def raceStep (maxRedeems : ℕ) (s : RaceState) : RaceAct → RaceState
  | .selectA => { s with readA := some s.counter }
  | .selectB => { s with readB := some s.counter }
  | .commitA =>
    match s.readA with
    | some v => if v < maxRedeems then { s with counter := v + 1, doneA := true } else s
    | none => s
  | .commitB =>
    match s.readB with
    | some v => if v < maxRedeems then { s with counter := v + 1, doneB := true } else s
    | none => s

/-- Run a schedule of interleaved actions. -/
def runRace (maxRedeems : ℕ) (s : RaceState) (sched : List RaceAct) : RaceState :=
  sched.foldl (raceStep maxRedeems) s

/-- Whether a supplied redeem code passes the validity check of the
claim: it exists (after normalization), is active, and still has a
redemption slot. -/
def codeValid (codes : List RedeemCode) (c : String) : Bool :=
  match codes.find? (fun rc => rc.code == normalizeCode c) with
  | none => false
  | some rc => rc.is_active && decide (rc.times_redeemed < rc.max_redeems)

/-- Discount as the specification words it: `round(subtotal * pct/100, 2)`
for a percentage code, `min(fixed_value, subtotal)` for a fixed-amount
code, and `0` when no code is supplied. Stated from the spec for
comparison against the implementation's pricing path. -/
def claimDiscount (codes : List RedeemCode) (subtotal : ℚ) : Option String → ℚ
  | none => 0
  | some c =>
    match codes.find? (fun rc => rc.code == normalizeCode c) with
    | none => 0
    | some rc =>
      match rc.discount_type with
      | .percentage => round2 (subtotal * (rc.discount_value / 100))
      | .fixed => min rc.discount_value subtotal

/-- Minor-unit conversion as the claim words it: the integer truncation
of `round(amount * 100)`. Stated from the spec for comparison against the
implementation's `int(total_amount * 100)`. -/
def claimMinorUnits (amount : ℚ) : ℤ := pyInt ((pyRound (amount * 100) : ℤ) : ℚ)

theorem resolveRedeemCode_ok_discount {codes : List RedeemCode} {st : ℚ}
    {rc? : Option String} {d : ℚ} {applied : Option RedeemCode}
    (h : resolveRedeemCode codes st rc? = .ok (d, applied)) :
    d = claimDiscount codes st rc? := by
  cases rc? with
  | none =>
    simp only [resolveRedeemCode, Except.ok.injEq, Prod.mk.injEq] at h
    simp [claimDiscount, h.1.symm]
  | some c =>
    simp only [resolveRedeemCode] at h
    rcases hf : codes.find? (fun rc => rc.code == normalizeCode c) with _ | rc
    · simp only [hf] at h; exact absurd h (by simp)
    · simp only [hf] at h
      by_cases ha : rc.is_active = false
      · rw [if_pos ha] at h; exact absurd h (by simp)
      · rw [if_neg ha] at h
        by_cases hm : rc.max_redeems ≤ rc.times_redeemed
        · rw [if_pos hm] at h; exact absurd h (by simp)
        · rw [if_neg hm] at h
          simp only [Except.ok.injEq, Prod.mk.injEq] at h
          simp [claimDiscount, hf, codeDiscount, h.1.symm]

theorem resolveRedeemCode_invalid {codes : List RedeemCode} {st : ℚ} {c : String}
    (h : codeValid codes c = false) :
    resolveRedeemCode codes st (some c) = .error .invalidCode := by
  simp only [resolveRedeemCode, codeValid] at *
  rcases hf : codes.find? (fun rc => rc.code == normalizeCode c) with _ | rc
  · simp only [hf]
  · simp only [hf] at h ⊢
    simp only [Bool.and_eq_false_iff] at h
    rcases h with h | h
    · rw [if_pos h]
    · by_cases ha : rc.is_active = false
      · rw [if_pos ha]
      · rw [if_neg ha, if_pos (by simpa using h)]

/-- C1: every successful createOrder call persists exactly one new order
whose `total_amount` is `max(subtotal - discount + shipping_fee, 0)` over
the cart snapshot at creation, with the discount given by the claim's
formula (`round(subtotal*pct/100, 2)` for percentage codes,
`min(fixed_value, subtotal)` for fixed codes, `0` without a code); and,
when the cart is non-empty, a supplied code that does not exist, is
inactive, or has an exhausted counter makes the call fail with the
invalid-code error. The total is a function of the stored cart, the code
table and the shipping fee alone — the request body (`OrderData`) carries
no total for the server to trust. -/
theorem create_order_pricing (db : DB) (uid : String) (od : OrderData)
    (gw : ℤ → Except Unit String) (noid : String) (now : ℤ) (ck : Bool) :
    (∀ rid, (create_order db uid od gw noid now ck).result = .ok rid →
      ∃ cart, db.carts.find? (fun c => c.user_id == uid) = some cart ∧
        ∃ ord, (create_order db uid od gw noid now ck).db.orders = db.orders ++ [ord] ∧
          ord.items = cart.items ∧
          ord.total_amount =
            max (cartSubtotal cart.items
                 - claimDiscount db.codes (cartSubtotal cart.items) od.redeem_code
                 + od.shipping_fee) 0) ∧
    (∀ cart, db.carts.find? (fun c => c.user_id == uid) = some cart → cart.items ≠ [] →
      ∀ c, od.redeem_code = some c → codeValid db.codes c = false →
        (create_order db uid od gw noid now ck).result = .error .invalidCode) := by
  constructor
  · intro rid h
    rcases hc : db.carts.find? (fun c => c.user_id == uid) with _ | cart
    · simp [create_order, hc] at h
    · refine ⟨cart, hc, ?_⟩
      by_cases hi : cart.items = []
      · simp [create_order, hc, hi] at h
      · rcases hr : resolveRedeemCode db.codes (cartSubtotal cart.items) od.redeem_code
          with e | ⟨d, applied⟩
        · simp [create_order, hc, hi, hr] at h
        · rcases hg : gw (pyInt (max (cartSubtotal cart.items - d + od.shipping_fee) 0 * 100))
            with u | rzpId
          · simp [create_order, hc, hi, hr, hg] at h
          · cases ck with
            | false => simp [create_order, hc, hi, hr, hg] at h
            | true =>
              refine ⟨{ id := noid, user_id := uid, razorpay_order_id := some rzpId,
                        razorpay_payment_id := none, items := cart.items,
                        shipping_address := od.shipping_address,
                        shipping_fee := od.shipping_fee,
                        total_amount := max (cartSubtotal cart.items - d + od.shipping_fee) 0,
                        status := .pending, created_at := now }, ?_, rfl, ?_⟩
              · simp [create_order, hc, hi, hr, hg]
              · simp [resolveRedeemCode_ok_discount hr]
  · intro cart hc hne c hcode hcv
    have hr := @resolveRedeemCode_invalid db.codes (cartSubtotal cart.items) c hcv
    simp [create_order, hc, hne, hcode, hr]

/-- Concrete store for the C1 witness: one cart for user u with two line
items and one active percentage code with free slots. -/
def dbC1 : DB :=
  { carts := [{ user_id := "u", items := [⟨some 499, some 1⟩, ⟨some 1000, some 2⟩] }]
    orders := []
    codes := [{ code := "SAVE10", is_active := true, times_redeemed := 0,
                max_redeems := 5, discount_type := .percentage, discount_value := 10 }]
    details := []
    returns := [] }

/-- Request body for the C1 witness, exercising code normalization. -/
def odC1 : OrderData :=
  { shipping_address := ⟨some "123", some "addr", some "city", some "0001"⟩
    shipping_fee := 50
    redeem_code := some " save10 " }

theorem create_order_pricing_witness :
    ∃ cart, dbC1.carts.find? (fun c => c.user_id == "u") = some cart ∧
      ∃ ord, (create_order dbC1 "u" odC1 (fun _ => .ok "rzp1") "o1" 0 true).db.orders
          = dbC1.orders ++ [ord] ∧
        ord.items = cart.items ∧
        ord.total_amount =
          max (cartSubtotal cart.items
               - claimDiscount dbC1.codes (cartSubtotal cart.items) odC1.redeem_code
               + odC1.shipping_fee) 0 :=
  (create_order_pricing dbC1 "u" odC1 (fun _ => .ok "rzp1") "o1" 0 true).1 "rzp1" (by rfl)

/-- Concrete store for the C10 witness: a non-empty cart whose line items
all lack the price key. -/
def dbC10 : DB :=
  { carts := [{ user_id := "u", items := [⟨none, none⟩, ⟨none, some 3⟩] }]
    orders := [], codes := [], details := [], returns := [] }

/-- Request body for the C10 witness. -/
def odC10 : OrderData :=
  { shipping_address := ⟨none, none, none, none⟩, shipping_fee := 49, redeem_code := none }

/-- C10: the subtotal computation is total on malformed line items — a
missing price key contributes price 0 and a missing quantity key
contributes quantity 1, a cart of price-less items has subtotal 0, and
createOrder still succeeds on such a cart, producing an order whose
total is just the shipping fee. -/
theorem create_order_malformed_items :
    (∀ it : CartItem, it.price = none → itemAmount it = 0) ∧
    (∀ it : CartItem, ∀ p : ℚ, it.price = some p → it.quantity = none → itemAmount it = p) ∧
    (∀ items : List CartItem, (∀ it ∈ items, it.price = none) → cartSubtotal items = 0) ∧
    (create_order dbC10 "u" odC10 (fun _ => .ok "r1") "o1" 0 true).result = .ok "r1" ∧
    (create_order dbC10 "u" odC10 (fun _ => .ok "r1") "o1" 0 true).db.orders.map
      Order.total_amount = [49] ∧
    cartSubtotal [⟨none, none⟩, ⟨none, some 3⟩] = 0 := by
  refine ⟨?_, ?_, ?_, by rfl,
    by simp [create_order, dbC10, odC10, resolveRedeemCode, cartSubtotal, itemAmount, upsertDetails],
    by simp [cartSubtotal, itemAmount]⟩
  · intro it h
    simp [itemAmount, h]
  · intro it p hp hq
    simp [itemAmount, hp, hq]
  · intro items h
    apply List.sum_eq_zero
    intro x hx
    rcases List.mem_map.mp hx with ⟨it, hit, rfl⟩
    simp [itemAmount, h it hit]

theorem create_order_malformed_items_witness :
    itemAmount ⟨none, some 5⟩ = 0 ∧ itemAmount ⟨some 7, none⟩ = 7 :=
  ⟨create_order_malformed_items.1 ⟨none, some 5⟩ rfl,
   create_order_malformed_items.2.1 ⟨some 7, none⟩ 7 rfl rfl⟩

/-- C8: whenever createOrder fails — empty cart, invalid code, gateway
intent-creation failure, or commit failure — the store is returned
unchanged: no order row is persisted and no redemption counter moves. A
gateway failure happens before any store mutation, and a commit failure
rolls the order insert and the counter increment back together. -/
theorem create_order_failure_atomic (db : DB) (uid : String) (od : OrderData)
    (gw : ℤ → Except Unit String) (noid : String) (now : ℤ) (ck : Bool) (e : CreateErr)
    (h : (create_order db uid od gw noid now ck).result = .error e) :
    (create_order db uid od gw noid now ck).db = db := by
  rcases hc : db.carts.find? (fun c => c.user_id == uid) with _ | cart
  · simp [create_order, hc]
  · by_cases hi : cart.items = []
    · simp [create_order, hc, hi]
    · rcases hr : resolveRedeemCode db.codes (cartSubtotal cart.items) od.redeem_code
        with e2 | ⟨d, applied⟩
      · simp [create_order, hc, hi, hr]
      · rcases hg : gw (pyInt (max (cartSubtotal cart.items - d + od.shipping_fee) 0 * 100))
          with u | rzpId
        · simp [create_order, hc, hi, hr, hg]
        · cases ck with
          | false => simp [create_order, hc, hi, hr, hg]
          | true => simp [create_order, hc, hi, hr, hg] at h

/-- Store for the C8 witness: the caller has no cart row at all, so the
call fails with the empty-cart error. -/
def dbC8 : DB := { carts := [], orders := [], codes := [], details := [], returns := [] }

theorem create_order_failure_atomic_witness :
    (create_order dbC8 "u" odC10 (fun _ => .ok "r1") "o1" 0 true).db = dbC8 :=
  create_order_failure_atomic dbC8 "u" odC10 (fun _ => .ok "r1") "o1" 0 true .emptyCart (by rfl)

/-- Concrete store for C6: a cart whose total comes to 0.335, where
truncation of `total*100` and truncation of `round(total*100)` differ. -/
def dbC6 : DB :=
  { carts := [{ user_id := "u", items := [⟨some (67/200), some 1⟩] }]
    orders := [], codes := [], details := [], returns := [] }

/-- Request body for C6: no shipping fee, no code, so the total is the
bare subtotal 0.335. -/
def odC6 : OrderData :=
  { shipping_address := ⟨none, none, none, none⟩, shipping_fee := 0, redeem_code := none }

/-- C6 counterexample: for a cart totalling 0.335, the code passes
`int(total_amount * 100) = 33` to the gateway, while the claim's formula
— integer truncation of `round(total_amount * 100)` — gives 34. -/
theorem create_order_gateway_amount_counterexample :
    (create_order dbC6 "u" odC6 (fun _ => .ok "r1") "o1" 0 true).gatewayAmounts = [33] ∧
    (create_order dbC6 "u" odC6 (fun _ => .ok "r1") "o1" 0 true).db.orders.map
      Order.total_amount = [67/200] ∧
    claimMinorUnits (67/200) = 34 := by
  refine ⟨?_, ?_, by norm_num [claimMinorUnits, pyRound, pyInt]⟩
  · simp [create_order, dbC6, odC6, resolveRedeemCode, cartSubtotal, itemAmount, upsertDetails]
    norm_num [pyInt]
  · simp [create_order, dbC6, odC6, resolveRedeemCode, cartSubtotal, itemAmount, upsertDetails]
    norm_num

/-- C6 as amended: the amount passed to the payment gateway's intent
creation equals the integer truncation of `total_amount * 100` itself
(no rounding step), where `total_amount` is the persisted order's
computed total. -/
theorem create_order_gateway_amount (db : DB) (uid : String) (od : OrderData)
    (gw : ℤ → Except Unit String) (noid : String) (now : ℤ) (ck : Bool) (rid : String)
    (h : (create_order db uid od gw noid now ck).result = .ok rid) :
    ∃ ord, (create_order db uid od gw noid now ck).db.orders = db.orders ++ [ord] ∧
      (create_order db uid od gw noid now ck).gatewayAmounts =
        [pyInt (ord.total_amount * 100)] := by
  rcases hc : db.carts.find? (fun c => c.user_id == uid) with _ | cart
  · simp [create_order, hc] at h
  · by_cases hi : cart.items = []
    · simp [create_order, hc, hi] at h
    · rcases hr : resolveRedeemCode db.codes (cartSubtotal cart.items) od.redeem_code
        with e2 | ⟨d, applied⟩
      · simp [create_order, hc, hi, hr] at h
      · rcases hg : gw (pyInt (max (cartSubtotal cart.items - d + od.shipping_fee) 0 * 100))
          with u | rzpId
        · simp [create_order, hc, hi, hr, hg] at h
        · cases ck with
          | false => simp [create_order, hc, hi, hr, hg] at h
          | true =>
            refine ⟨{ id := noid, user_id := uid, razorpay_order_id := some rzpId,
                      razorpay_payment_id := none, items := cart.items,
                      shipping_address := od.shipping_address,
                      shipping_fee := od.shipping_fee,
                      total_amount := max (cartSubtotal cart.items - d + od.shipping_fee) 0,
                      status := .pending, created_at := now }, ?_, ?_⟩
            · simp [create_order, hc, hi, hr, hg]
            · simp [create_order, hc, hi, hr, hg]

theorem create_order_gateway_amount_witness :
    ∃ ord, (create_order dbC6 "u" odC6 (fun _ => .ok "r1") "o1" 0 true).db.orders
        = dbC6.orders ++ [ord] ∧
      (create_order dbC6 "u" odC6 (fun _ => .ok "r1") "o1" 0 true).gatewayAmounts =
        [pyInt (ord.total_amount * 100)] :=
  create_order_gateway_amount dbC6 "u" odC6 (fun _ => .ok "r1") "o1" 0 true "r1" (by rfl)

/-- C4: a confirmation whose signature differs from the expected
signature for the submitted (gateway order id, payment id) pair fails
with the signature-verification error and leaves the store untouched —
every order keeps its status and payment id and every cart keeps its
items; a transport error from the signing utility (anything other than a
signature mismatch) is instead reported as the retryable
verification-service error, also leaving the store untouched. -/
theorem verify_payment_no_state_change (db : DB) (uid userEmail : String)
    (deets : PaymentsDeets) (expected : String → String → String) (ck : Bool) :
    (deets.razorpay_signature ≠
        expected deets.razorpay_order_id deets.razorpay_payment_id →
      verify_payment_endpoint db uid userEmail deets expected false ck =
        ⟨.error .sigFailed, db, []⟩) ∧
    (verify_payment_endpoint db uid userEmail deets expected true ck =
      ⟨.error .serviceError, db, []⟩) := by
  constructor
  · intro h
    have hb : (deets.razorpay_signature ==
        expected deets.razorpay_order_id deets.razorpay_payment_id) = false :=
      beq_eq_false_iff_ne.mpr h
    simp [verify_payment_endpoint, verify_payment, hb]
  · simp [verify_payment_endpoint, verify_payment]

/-- Concrete store for the C4 witness: one pending order and a non-empty
cart for its owner. -/
def dbC4 : DB :=
  { carts := [{ user_id := "A", items := [⟨some 10, some 1⟩] }]
    orders := [{ id := "o1", user_id := "A", razorpay_order_id := some "rz1",
                 razorpay_payment_id := none, items := [⟨some 10, some 1⟩],
                 shipping_address := ⟨none, none, none, none⟩, shipping_fee := 0,
                 total_amount := 10, status := .pending, created_at := 0 }]
    codes := [], details := [], returns := [] }

/-- Signature function used by the concrete confirmation witnesses. -/
def expectedSig (oid pid : String) : String := oid ++ "|" ++ pid

theorem verify_payment_no_state_change_witness :
    verify_payment_endpoint dbC4 "A" "a@x" ⟨"rz1", "p1", "bad"⟩ expectedSig false true =
      ⟨.error .sigFailed, dbC4, []⟩ :=
  (verify_payment_no_state_change dbC4 "A" "a@x" ⟨"rz1", "p1", "bad"⟩ expectedSig true).1
    (by decide)

/-- Concrete store for C9: the matched order belongs to account A, while
accounts A and B both have non-empty carts. -/
def dbC9 : DB :=
  { carts := [{ user_id := "A", items := [⟨some 5, some 1⟩] },
              { user_id := "B", items := [⟨some 7, some 1⟩] }]
    orders := [{ id := "o1", user_id := "A", razorpay_order_id := some "rz1",
                 razorpay_payment_id := none, items := [⟨some 5, some 1⟩],
                 shipping_address := ⟨none, none, none, none⟩, shipping_fee := 0,
                 total_amount := 5, status := .pending, created_at := 0 }]
    codes := [], details := [], returns := [] }

/-- C9 counterexample: account B submits a valid confirmation for the
order placed by account A; the order is marked PAID, but it is B's cart
(the submitter's) that is emptied while A's cart — the owning account's
cart — keeps its items, contradicting the claim that the owning
account's cart is emptied regardless of who submits. -/
theorem verify_payment_clears_submitter_cart :
    (verify_payment_endpoint dbC9 "B" "b@x" ⟨"rz1", "p1", expectedSig "rz1" "p1"⟩
        expectedSig false true).result = .ok (some "o1") ∧
    (verify_payment_endpoint dbC9 "B" "b@x" ⟨"rz1", "p1", expectedSig "rz1" "p1"⟩
        expectedSig false true).db.orders.map Order.status = [.paid] ∧
    (verify_payment_endpoint dbC9 "B" "b@x" ⟨"rz1", "p1", expectedSig "rz1" "p1"⟩
        expectedSig false true).db.carts =
      [{ user_id := "A", items := [⟨some 5, some 1⟩] }, { user_id := "B", items := [] }] := by
  refine ⟨by rfl, by rfl, ?_⟩
  simp [verify_payment_endpoint, verify_payment, dbC9, expectedSig, clearCart]

/-- C9 as amended: on a successful verification where an order matches
the gateway order id, the matched order is transitioned to PAID with the
gateway payment id recorded, and the cart that is emptied is the cart of
the authenticated account that submitted the confirmation; carts of
other accounts are left untouched. -/
theorem verify_payment_success (db : DB) (uid userEmail : String)
    (deets : PaymentsDeets) (expected : String → String → String) (om : Order)
    (hsig : deets.razorpay_signature =
      expected deets.razorpay_order_id deets.razorpay_payment_id)
    (hfind : db.orders.find?
      (fun o => o.razorpay_order_id == some deets.razorpay_order_id) = some om) :
    (verify_payment_endpoint db uid userEmail deets expected false true).result
        = .ok (some om.id) ∧
    (∃ ord ∈ (verify_payment_endpoint db uid userEmail deets expected false true).db.orders,
       ord.id = om.id ∧ ord.status = .paid ∧
       ord.razorpay_payment_id = some deets.razorpay_payment_id) ∧
    (∀ c ∈ (verify_payment_endpoint db uid userEmail deets expected false true).db.carts,
       c.user_id = uid → c.items = []) ∧
    (∀ c ∈ db.carts, c.user_id ≠ uid →
       c ∈ (verify_payment_endpoint db uid userEmail deets expected false true).db.carts) := by
  have hb : (deets.razorpay_signature ==
      expected deets.razorpay_order_id deets.razorpay_payment_id) = true :=
    beq_iff_eq.mpr hsig
  have hrun : verify_payment_endpoint db uid userEmail deets expected false true =
      ⟨.ok (some om.id),
       { db with
         orders := db.orders.map (paidUpdate om.id deets.razorpay_payment_id)
         carts := db.carts.map (clearCart uid) },
       [.orderConfirmation userEmail om.id, .adminNewOrder om.id]⟩ := by
    simp [verify_payment_endpoint, verify_payment, hb, hfind]
  refine ⟨?_, ?_, ?_, ?_⟩
  · rw [hrun]
  · refine ⟨{ om with status := OrderStatus.paid, razorpay_payment_id := some deets.razorpay_payment_id }, ?_, rfl, rfl, rfl⟩
    rw [hrun]
    have hm : om ∈ db.orders := List.mem_of_find?_eq_some hfind
    have := List.mem_map_of_mem (paidUpdate om.id deets.razorpay_payment_id) hm
    simpa [paidUpdate] using this
  · intro c hc _hcu
    rw [hrun] at hc
    simp only [List.mem_map] at hc
    rcases hc with ⟨c0, _hc0, rfl⟩
    unfold clearCart at _hcu ⊢
    by_cases h0 : c0.user_id == uid
    · simp [h0]
    · rw [if_neg h0] at _hcu ⊢
      exact absurd _hcu (by simpa using h0)
  · intro c hc hne
    rw [hrun]
    have := List.mem_map_of_mem (clearCart uid) hc
    simpa [clearCart, beq_eq_false_iff_ne.mpr hne] using this

theorem verify_payment_success_witness :
    (verify_payment_endpoint dbC4 "A" "a@x" ⟨"rz1", "p1", expectedSig "rz1" "p1"⟩
        expectedSig false true).result = .ok (some "o1") ∧
    (∃ ord ∈ (verify_payment_endpoint dbC4 "A" "a@x" ⟨"rz1", "p1", expectedSig "rz1" "p1"⟩
        expectedSig false true).db.orders,
       ord.id = "o1" ∧ ord.status = .paid ∧ ord.razorpay_payment_id = some "p1") := by
  have h := verify_payment_success dbC4 "A" "a@x" ⟨"rz1", "p1", expectedSig "rz1" "p1"⟩
    expectedSig
    { id := "o1", user_id := "A", razorpay_order_id := some "rz1",
      razorpay_payment_id := none, items := [⟨some 10, some 1⟩],
      shipping_address := ⟨none, none, none, none⟩, shipping_fee := 0,
      total_amount := 10, status := .pending, created_at := 0 }
    (by decide) (by rfl)
  exact ⟨h.1, h.2.1⟩

theorem paidUpdate_idem (i p : String) (o : Order) :
    paidUpdate i p (paidUpdate i p o) = paidUpdate i p o := by
  unfold paidUpdate
  by_cases h : o.id == i <;> simp [h]

theorem clearCart_idem (u : String) (c : ShoppingCart) :
    clearCart u (clearCart u c) = clearCart u c := by
  unfold clearCart
  by_cases h : c.user_id == u <;> simp [h]

theorem find?_map_paidUpdate (i p oid : String) (l : List Order) :
    (l.map (paidUpdate i p)).find? (fun o => o.razorpay_order_id == some oid)
      = (l.find? (fun o => o.razorpay_order_id == some oid)).map (paidUpdate i p) := by
  rw [List.find?_map]
  have hpe : ((fun o : Order => o.razorpay_order_id == some oid) ∘ paidUpdate i p)
      = (fun o : Order => o.razorpay_order_id == some oid) := by
    funext o
    simp only [Function.comp_apply, paidUpdate]
    by_cases h : (o.id == i) = true
    · rw [if_pos h]
    · rw [if_neg h]
  rw [hpe]

/-- C5 counterexample: after a first successful confirmation for the
order, a second call with the same valid triple attempts the very same
order-confirmation and admin emails again — the second call is not
email-silent, contradicting the claim that no duplicate confirmation
email is sent. -/
theorem verify_payment_duplicate_email :
    (verify_payment_endpoint
        (verify_payment_endpoint dbC4 "A" "a@x" ⟨"rz1", "p1", expectedSig "rz1" "p1"⟩
          expectedSig false true).db
        "A" "a@x" ⟨"rz1", "p1", expectedSig "rz1" "p1"⟩ expectedSig false true).emails
      = [.orderConfirmation "a@x" "o1", .adminNewOrder "o1"] ∧
    (verify_payment_endpoint dbC4 "A" "a@x" ⟨"rz1", "p1", expectedSig "rz1" "p1"⟩
        expectedSig false true).emails
      = [.orderConfirmation "a@x" "o1", .adminNewOrder "o1"] := by
  exact ⟨by rfl, by rfl⟩

/-- C5 as amended: a second confirmation call with the same valid triple
is idempotent on the persistent store and on the response — the order
stays PAID with the same payment id, the cart stays empty, nothing is
double-incremented, and the same success payload is returned — but the
whole outcome (emails included) repeats: the confirmation and admin
emails are dispatched again rather than suppressed. -/
theorem verify_payment_idempotent (db : DB) (uid userEmail : String)
    (deets : PaymentsDeets) (expected : String → String → String) (om : Order)
    (hsig : deets.razorpay_signature =
      expected deets.razorpay_order_id deets.razorpay_payment_id)
    (hfind : db.orders.find?
      (fun o => o.razorpay_order_id == some deets.razorpay_order_id) = some om) :
    verify_payment_endpoint
        (verify_payment_endpoint db uid userEmail deets expected false true).db
        uid userEmail deets expected false true
      = verify_payment_endpoint db uid userEmail deets expected false true := by
  have hb : (deets.razorpay_signature ==
      expected deets.razorpay_order_id deets.razorpay_payment_id) = true :=
    beq_iff_eq.mpr hsig
  have hrun1 : verify_payment_endpoint db uid userEmail deets expected false true =
      ⟨.ok (some om.id),
       { db with
         orders := db.orders.map (paidUpdate om.id deets.razorpay_payment_id)
         carts := db.carts.map (clearCart uid) },
       [.orderConfirmation userEmail om.id, .adminNewOrder om.id]⟩ := by
    simp [verify_payment_endpoint, verify_payment, hb, hfind]
  have hfind2 : (db.orders.map (paidUpdate om.id deets.razorpay_payment_id)).find?
      (fun o => o.razorpay_order_id == some deets.razorpay_order_id)
      = some (paidUpdate om.id deets.razorpay_payment_id om) := by
    rw [find?_map_paidUpdate, hfind]
    rfl
  have homid : (paidUpdate om.id deets.razorpay_payment_id om).id = om.id := by
    simp [paidUpdate]
  have horders : (db.orders.map (paidUpdate om.id deets.razorpay_payment_id)).map
        (paidUpdate om.id deets.razorpay_payment_id)
      = db.orders.map (paidUpdate om.id deets.razorpay_payment_id) := by
    rw [List.map_map]
    exact List.map_congr_left (fun a _ => paidUpdate_idem om.id deets.razorpay_payment_id a)
  have hcarts : (db.carts.map (clearCart uid)).map (clearCart uid)
      = db.carts.map (clearCart uid) := by
    rw [List.map_map]
    exact List.map_congr_left (fun a _ => clearCart_idem uid a)
  rw [hrun1]
  simp [verify_payment_endpoint, verify_payment, hb, hfind2, homid, horders, hcarts]

theorem verify_payment_idempotent_witness :
    verify_payment_endpoint
        (verify_payment_endpoint dbC4 "A" "a@x" ⟨"rz1", "p1", expectedSig "rz1" "p1"⟩
          expectedSig false true).db
        "A" "a@x" ⟨"rz1", "p1", expectedSig "rz1" "p1"⟩ expectedSig false true
      = verify_payment_endpoint dbC4 "A" "a@x" ⟨"rz1", "p1", expectedSig "rz1" "p1"⟩
          expectedSig false true :=
  verify_payment_idempotent dbC4 "A" "a@x" ⟨"rz1", "p1", expectedSig "rz1" "p1"⟩ expectedSig
    ⟨"o1", "A", some "rz1", none, [⟨some 10, some 1⟩], ⟨none, none, none, none⟩, 0, 10,
      .pending, 0⟩
    (by decide) (by rfl)

/-- C7: requestReturn checks its preconditions in order, each with its
own failure — unowned or nonexistent order: not-found; status other than
DELIVERED: invalid-state; more than 7 whole days since creation:
window-expired (exactly 8 days is rejected, exactly 7 days passes, per
the final arithmetic conjunct); an existing ReturnRequest: duplicate. On
success a PENDING ReturnRequest is appended and the order moves to
RETURN_REQUESTED in the same commit; a failed commit leaves the store
unchanged. -/
theorem initiate_return_spec (db : DB) (uid oid reason rid : String) (now : ℤ) (ck : Bool) :
    (db.orders.find? (fun o => o.id == oid && o.user_id == uid) = none →
      initiate_return db uid oid reason rid now ck = ⟨.error .notFound, db⟩) ∧
    (∀ order, db.orders.find? (fun o => o.id == oid && o.user_id == uid) = some order →
      (order.status ≠ .delivered →
        initiate_return db uid oid reason rid now ck = ⟨.error .invalidState, db⟩) ∧
      (order.status = .delivered → 7 < daysSince now order.created_at →
        initiate_return db uid oid reason rid now ck = ⟨.error .windowExpired, db⟩) ∧
      (order.status = .delivered → daysSince now order.created_at ≤ 7 →
        ∀ rr, db.returns.find? (fun r => r.order_id == oid) = some rr →
          initiate_return db uid oid reason rid now ck = ⟨.error .duplicateRequest, db⟩) ∧
      (order.status = .delivered → daysSince now order.created_at ≤ 7 →
        db.returns.find? (fun r => r.order_id == oid) = none →
        (ck = false → initiate_return db uid oid reason rid now ck = ⟨.error .dbError, db⟩) ∧
        (ck = true →
          (initiate_return db uid oid reason rid now ck).result = .ok rid ∧
          (initiate_return db uid oid reason rid now ck).db.returns
            = db.returns ++ [⟨rid, oid, uid, reason, .pending, now⟩] ∧
          ∃ o2 ∈ (initiate_return db uid oid reason rid now ck).db.orders,
            o2.id = order.id ∧ o2.status = .return_requested))) ∧
    (∀ c0 : ℤ, daysSince (c0 + 7 * 86400) c0 = 7 ∧ daysSince (c0 + 8 * 86400) c0 = 8) := by
  refine ⟨?_, ?_, ?_⟩
  · intro h
    simp [initiate_return, h]
  · intro order ho
    refine ⟨?_, ?_, ?_, ?_⟩
    · intro hs
      simp [initiate_return, ho, hs]
    · intro hs hw
      simp [initiate_return, ho, hs, hw]
    · intro hs hw rr hrr
      simp [initiate_return, ho, hs, not_lt.mpr hw, hrr]
    · intro hs hw hnone
      constructor
      · intro hck
        subst hck
        simp [initiate_return, ho, hs, not_lt.mpr hw, hnone]
      · intro hck
        subst hck
        have hrun : initiate_return db uid oid reason rid now true =
            ⟨.ok rid,
             { db with
               returns := db.returns ++ [⟨rid, oid, uid, reason, .pending, now⟩]
               orders := db.orders.map (fun o =>
                 if o.id == order.id then { o with status := .return_requested } else o) }⟩ := by
          simp [initiate_return, ho, hs, not_lt.mpr hw, hnone]
        refine ⟨by rw [hrun], by rw [hrun], ?_⟩
        rw [hrun]
        refine ⟨{ order with status := OrderStatus.return_requested }, ?_, rfl, rfl⟩
        have hm : order ∈ db.orders := List.mem_of_find?_eq_some ho
        have := List.mem_map_of_mem
          (fun o => if o.id == order.id then
            { o with status := OrderStatus.return_requested } else o) hm
        simpa using this
  · intro c0
    constructor
    · have h7 : c0 + 7 * 86400 - c0 = 7 * 86400 := by ring
      simp only [daysSince, h7]
      decide
    · have h8 : c0 + 8 * 86400 - c0 = 8 * 86400 := by ring
      simp only [daysSince, h8]
      decide

/-- Concrete store for the C7 witness: a delivered order created at epoch
0 with no prior return request. -/
def dbC7 : DB :=
  { carts := []
    orders := [{ id := "o1", user_id := "u", razorpay_order_id := some "rz1",
                 razorpay_payment_id := some "p1", items := [⟨some 10, some 1⟩],
                 shipping_address := ⟨none, none, none, none⟩, shipping_fee := 0,
                 total_amount := 10, status := .delivered, created_at := 0 }]
    codes := [], details := [], returns := [] }

theorem initiate_return_spec_witness :
    (initiate_return dbC7 "u" "o1" "damaged" "r1" (7 * 86400) true).result = .ok "r1" ∧
    (initiate_return dbC7 "u" "o1" "damaged" "r1" (7 * 86400) true).db.returns
      = dbC7.returns ++ [⟨"r1", "o1", "u", "damaged", .pending, 7 * 86400⟩] := by
  have h := ((initiate_return_spec dbC7 "u" "o1" "damaged" "r1" (7 * 86400) true).2.1
    { id := "o1", user_id := "u", razorpay_order_id := some "rz1",
      razorpay_payment_id := some "p1", items := [⟨some 10, some 1⟩],
      shipping_address := ⟨none, none, none, none⟩, shipping_fee := 0,
      total_amount := 10, status := .delivered, created_at := 0 }
    (by rfl)).2.2.2 rfl (by decide) (by rfl)
  exact ⟨(h.2 rfl).1, (h.2 rfl).2.1⟩

/-- C2: the source's redeem-code handling is a read-then-check-then-write
(SELECT at `routers/orders.py` line 53, Python-side check at line 57,
stale in-memory increment committed at lines 100 and 104), not the atomic
conditional update the invariant requires. With one remaining slot
(counter 4 of a ceiling of 5), the interleaving select-A, select-B,
commit-A, commit-B lets both racing checkouts pass the check and redeem —
two successes for one slot, one increment lost — so the "at most one of N
concurrent calls succeeds" guarantee fails on this code. -/
theorem redeem_race_two_successes :
    runRace 5 ⟨4, none, none, false, false⟩ [.selectA, .selectB, .commitA, .commitB]
      = ⟨5, some 4, some 4, true, true⟩ := by rfl

theorem create_order_orders_mem {db : DB} {uid : String} {od : OrderData}
    {gw : ℤ → Except Unit String} {noid : String} {now : ℤ} {ck : Bool} {o2 : Order}
    (h : o2 ∈ (create_order db uid od gw noid now ck).db.orders) :
    o2 ∈ db.orders ∨ o2.status = .pending := by
  rcases hc : db.carts.find? (fun c => c.user_id == uid) with _ | cart
  · simp only [create_order, hc] at h
    exact Or.inl h
  · by_cases hi : cart.items = []
    · simp only [create_order, hc, if_pos hi] at h
      exact Or.inl h
    · rcases hr : resolveRedeemCode db.codes (cartSubtotal cart.items) od.redeem_code
        with e2 | ⟨d, applied⟩
      · simp only [create_order, hc, if_neg hi, hr] at h
        exact Or.inl h
      · rcases hg : gw (pyInt (max (cartSubtotal cart.items - d + od.shipping_fee) 0 * 100))
          with u | rzpId
        · simp only [create_order, hc, if_neg hi, hr, hg] at h
          exact Or.inl h
        · cases ck with
          | false =>
            simp only [create_order, hc, if_neg hi, hr, hg, Bool.false_eq_true, if_false] at h
            exact Or.inl h
          | true =>
            simp only [create_order, hc, if_neg hi, hr, hg, if_true] at h
            rcases List.mem_append.mp h with h1 | h1
            · exact Or.inl h1
            · right
              rcases List.mem_singleton.mp h1 with rfl
              rfl

theorem verify_endpoint_orders_mem {db : DB} {uid userEmail : String}
    {deets : PaymentsDeets} {expected : String → String → String}
    {transport ck : Bool} {o2 : Order}
    (h : o2 ∈ (verify_payment_endpoint db uid userEmail deets expected transport ck).db.orders) :
    o2 ∈ db.orders ∨
    (transport = false ∧
     deets.razorpay_signature = expected deets.razorpay_order_id deets.razorpay_payment_id ∧
     o2.status = .paid ∧ o2.razorpay_payment_id = some deets.razorpay_payment_id) := by
  cases transport with
  | true =>
    simp only [verify_payment_endpoint, verify_payment, if_true] at h
    exact Or.inl h
  | false =>
    by_cases hb : (deets.razorpay_signature ==
        expected deets.razorpay_order_id deets.razorpay_payment_id) = true
    · rcases hf : db.orders.find?
        (fun o => o.razorpay_order_id == some deets.razorpay_order_id) with _ | om
      · simp only [verify_payment_endpoint, verify_payment, Bool.false_eq_true, if_false,
          hb, hf] at h
        exact Or.inl h
      · cases ck with
        | false =>
          simp only [verify_payment_endpoint, verify_payment, Bool.false_eq_true, if_false,
            hb, hf] at h
          exact Or.inl h
        | true =>
          simp only [verify_payment_endpoint, verify_payment, Bool.false_eq_true, if_false,
            hb, hf, if_true] at h
          rcases List.mem_map.mp h with ⟨o, ho, rfl⟩
          unfold paidUpdate
          by_cases hid : (o.id == om.id) = true
          · rw [if_pos hid]
            exact Or.inr ⟨rfl, beq_iff_eq.mp hb, rfl, rfl⟩
          · rw [if_neg hid]
            exact Or.inl ho
    · simp only [verify_payment_endpoint, verify_payment, Bool.false_eq_true, if_false,
        Bool.not_eq_true] at h
      rw [Bool.not_eq_true] at hb
      simp only [hb] at h
      exact Or.inl h

theorem admin_update_order_orders_mem {db : DB} {oid : String} {st : OrderStatus}
    {ck : Bool} {o2 : Order}
    (h : o2 ∈ (admin_update_order_status db oid st ck).db.orders) :
    o2 ∈ db.orders ∨ o2.status = st := by
  rcases hf : db.orders.find? (fun o => o.id == oid) with _ | om
  · simp only [admin_update_order_status, hf] at h
    exact Or.inl h
  · cases ck with
    | false =>
      simp only [admin_update_order_status, hf, Bool.false_eq_true, if_false] at h
      exact Or.inl h
    | true =>
      simp only [admin_update_order_status, hf, if_true] at h
      rcases List.mem_map.mp h with ⟨o, ho, rfl⟩
      by_cases hid : (o.id == om.id) = true
      · rw [if_pos hid]
        exact Or.inr rfl
      · rw [if_neg hid]
        exact Or.inl ho

theorem initiate_return_orders_mem {db : DB} {uid oid reason rid : String}
    {now : ℤ} {ck : Bool} {o2 : Order}
    (h : o2 ∈ (initiate_return db uid oid reason rid now ck).db.orders) :
    o2 ∈ db.orders ∨ o2.status = .return_requested := by
  rcases hf : db.orders.find? (fun o => o.id == oid && o.user_id == uid) with _ | om
  · simp only [initiate_return, hf] at h
    exact Or.inl h
  · by_cases hs : om.status ≠ OrderStatus.delivered
    · simp only [initiate_return, hf, if_pos hs] at h
      exact Or.inl h
    · by_cases hw : 7 < daysSince now om.created_at
      · simp only [initiate_return, hf, if_neg hs, if_pos hw] at h
        exact Or.inl h
      · by_cases hd : (db.returns.find? (fun r => r.order_id == oid)).isSome = true
        · simp only [initiate_return, hf, if_neg hs, if_neg hw, if_pos hd] at h
          exact Or.inl h
        · cases ck with
          | false =>
            simp only [initiate_return, hf, if_neg hs, if_neg hw, if_neg hd,
              Bool.false_eq_true, if_false] at h
            exact Or.inl h
          | true =>
            simp only [initiate_return, hf, if_neg hs, if_neg hw, if_neg hd, if_true] at h
            rcases List.mem_map.mp h with ⟨o, ho, rfl⟩
            by_cases hid : (o.id == om.id) = true
            · rw [if_pos hid]
              exact Or.inr rfl
            · rw [if_neg hid]
              exact Or.inl ho

theorem admin_update_return_orders_mem {db : DB} {rid : String} {decision : ReturnStatus}
    {ck : Bool} {o2 : Order}
    (h : o2 ∈ (admin_update_return_status db rid decision ck).db.orders) :
    o2 ∈ db.orders ∨ o2.status = .returned ∨ o2.status = .delivered := by
  rcases hf : db.returns.find? (fun r => r.id == rid) with _ | rr
  · simp only [admin_update_return_status, hf] at h
    exact Or.inl h
  · cases ck with
    | false =>
      simp only [admin_update_return_status, hf, Bool.false_eq_true, if_false] at h
      exact Or.inl h
    | true =>
      simp only [admin_update_return_status, hf, if_true] at h
      rcases ho : db.orders.find? (fun o => o.id == rr.order_id) with _ | om
      · simp only [ho] at h
        exact Or.inl h
      · simp only [ho] at h
        by_cases hap : decision = ReturnStatus.approved
        · simp only [if_pos hap] at h
          rcases List.mem_map.mp h with ⟨o, hmem, rfl⟩
          by_cases hid : (o.id == om.id) = true
          · rw [if_pos hid]
            exact Or.inr (Or.inl rfl)
          · rw [if_neg hid]
            exact Or.inl hmem
        · simp only [if_neg hap] at h
          by_cases hre : decision = ReturnStatus.rejected
          · simp only [if_pos hre] at h
            rcases List.mem_map.mp h with ⟨o, hmem, rfl⟩
            by_cases hid : (o.id == om.id) = true
            · rw [if_pos hid]
              exact Or.inr (Or.inr rfl)
            · rw [if_neg hid]
              exact Or.inl hmem
          · simp only [if_neg hre] at h
            exact Or.inl h

/-- C3 as amended: across every order-mutating operation of the system,
an order that is PAID after a step either was already in the store
before the step, or the step was a payment confirmation whose signature
verified successfully against the exact submitted (gateway order id,
payment id) pair — with that payment id recorded on the order — or the
step was an administrator status update requesting PAID, which sets the
status unconditionally and thereby bypasses verification. -/
theorem paid_requires_verification_or_admin (expected : String → String → String)
    (db : DB) (e : Event) (o2 : Order)
    (h2 : o2 ∈ (step expected db e).orders) (hp : o2.status = .paid) :
    o2 ∈ db.orders ∨
    (∃ oid ck, e = .adminSetStatus oid .paid ck) ∨
    (∃ uid userEmail deets ck, e = .confirm uid userEmail deets false ck ∧
       deets.razorpay_signature = expected deets.razorpay_order_id deets.razorpay_payment_id ∧
       o2.razorpay_payment_id = some deets.razorpay_payment_id) := by
  cases e with
  | create uid od gwFail gwId newOrderId now commitOk =>
    rcases create_order_orders_mem h2 with h | h
    · exact Or.inl h
    · rw [hp] at h
      exact absurd h (by simp)
  | confirm uid userEmail deets transport commitOk =>
    rcases verify_endpoint_orders_mem h2 with h | ⟨ht, hs, _hst, hpid⟩
    · exact Or.inl h
    · subst ht
      exact Or.inr (Or.inr ⟨uid, userEmail, deets, commitOk, rfl, hs, hpid⟩)
  | adminSetStatus oid st commitOk =>
    rcases admin_update_order_orders_mem h2 with h | h
    · exact Or.inl h
    · rw [hp] at h
      exact Or.inr (Or.inl ⟨oid, commitOk, by rw [h]⟩)
  | requestReturn uid oid reason newReqId now commitOk =>
    rcases initiate_return_orders_mem h2 with h | h
    · exact Or.inl h
    · rw [hp] at h
      exact absurd h (by simp)
  | adminReturn rid decision commitOk =>
    rcases admin_update_return_orders_mem h2 with h | h | h
    · exact Or.inl h
    · rw [hp] at h
      exact absurd h (by simp)
    · rw [hp] at h
      exact absurd h (by simp)

/-- Concrete store for the C3 counterexample: a single pending order. -/
def dbC3 : DB :=
  { carts := []
    orders := [{ id := "o1", user_id := "A", razorpay_order_id := some "rz1",
                 razorpay_payment_id := none, items := [⟨some 10, some 1⟩],
                 shipping_address := ⟨none, none, none, none⟩, shipping_fee := 0,
                 total_amount := 10, status := .pending, created_at := 0 }]
    codes := [], details := [], returns := [] }

/-- C3 counterexample: a single admin status-update event takes the
pending order straight to PAID; the event is not a payment confirmation
and invokes no signature verification at all, so the system does provide
a path that marks an order PAID while bypassing verifyCompletion. -/
theorem admin_can_mark_paid_without_verification :
    dbC3.orders.map Order.status = [.pending] ∧
    (step (fun _ _ => "s") dbC3 (.adminSetStatus "o1" .paid true)).orders.map Order.status
      = [.paid] := by
  exact ⟨by rfl, by rfl⟩

theorem paid_requires_verification_or_admin_witness :
    (({ id := "o1", user_id := "A", razorpay_order_id := some "rz1",
        razorpay_payment_id := none, items := [⟨some 10, some 1⟩],
        shipping_address := ⟨none, none, none, none⟩, shipping_fee := 0,
        total_amount := 10, status := OrderStatus.paid, created_at := 0 } : Order) ∈ dbC3.orders)
    ∨ (∃ oid ck, (Event.adminSetStatus "o1" .paid true) = .adminSetStatus oid .paid ck)
    ∨ (∃ uid userEmail deets ck,
         (Event.adminSetStatus "o1" .paid true) = .confirm uid userEmail deets false ck ∧
         deets.razorpay_signature =
           (fun _ _ : String => "s") deets.razorpay_order_id deets.razorpay_payment_id ∧
         some "p" = some deets.razorpay_payment_id) := by
  have h := paid_requires_verification_or_admin (fun _ _ => "s") dbC3
    (.adminSetStatus "o1" .paid true)
    { id := "o1", user_id := "A", razorpay_order_id := some "rz1",
      razorpay_payment_id := none, items := [⟨some 10, some 1⟩],
      shipping_address := ⟨none, none, none, none⟩, shipping_fee := 0,
      total_amount := 10, status := OrderStatus.paid, created_at := 0 }
    (by exact List.Mem.head _) rfl
  rcases h with h | h | h
  · exact Or.inl h
  · exact Or.inr (Or.inl h)
  · rcases h with ⟨uid, userEmail, deets, ck, heq, _⟩
    exact absurd heq (by simp)

end ByteKart
